import Mathlib

/-!
Verification of the client-side router from oliverjam/learn-client-side-routing.

The router under verification is the final assembled router of the workshop:
its functions are given piecewise as the solution code blocks of src/README.md
(get: lines 101-103, handleClick: 342-355, redirect: 374-378, navigate: 483-488,
listen: 318-322, handlePop: 214-217, close: 519-521), and the basic variant is
src/solution/app.js.  The embedding below translates each of those functions;
the browser collaborators the code drives (URL parsing, history.pushState,
addEventListener / removeEventListener, event dispatch) are modelled explicitly.
-/

namespace Router

/-- Result of the browser URL constructor: a parsed absolute URL, carrying
the properties of a WHATWG URL object that the router reads: origin, pathname,
search, hash, and href (the serialized normalized form, as passed by navigate
to window.history.pushState). -/
structure ParsedURL where
  origin : String
  pathname : String
  search : String
  hash : String
  href : String
deriving DecidableEq, Repr

/-- A character allowed after the first in a URL scheme: an ASCII letter or
digit, or plus, minus, dot. -/
def isSchemeChar (c : Char) : Bool :=
  c.isAlphanum || c == '+' || c == '-' || c == '.'

/-- Recognises a URL scheme at the front of the string: an ASCII letter
followed by scheme characters and a colon.  Returns the scheme (without the
colon) and the remainder after the colon; none when there is no scheme, in
which case the string is a relative URL and the URL constructor throws. -/
def splitScheme (cs : List Char) : Option (List Char × List Char) :=
  match cs with
  | [] => none
  | c :: rest =>
    if c.isAlpha then
      let schemeRest := rest.takeWhile isSchemeChar
      match rest.drop schemeRest.length with
      | ':' :: tail => some (c :: schemeRest, tail)
      | _ => none
    else none

/-- The special schemes of the URL standard whose URLs carry a tuple origin;
all other URLs expose the origin as the string null. -/
def specialScheme (scheme : List Char) : Bool :=
  scheme == "http".data || scheme == "https".data || scheme == "ws".data
    || scheme == "wss".data || scheme == "ftp".data

/-- Parses the part after scheme:// of a hierarchical URL: the host runs to
the first of / ? #, the path to the first of ? #, the search to the first #.
The pathname of a hierarchical URL always carries a leading slash, as in the
URL standard (an absent path serializes as the slash alone). -/
def mkHierarchical (scheme tail : List Char) : ParsedURL :=
  let host := tail.takeWhile (fun c => !(c == '/' || c == '?' || c == '#'))
  let rest := tail.drop host.length
  let pathRaw := rest.takeWhile (fun c => !(c == '?' || c == '#'))
  let afterPath := rest.drop pathRaw.length
  let search := afterPath.takeWhile (fun c => !(c == '#'))
  let hash := afterPath.drop search.length
  let pathTail :=
    match pathRaw with
    | '/' :: cs => cs
    | cs => cs
  let base := String.mk scheme ++ "://" ++ String.mk host
  { origin := if specialScheme scheme then base else "null"
    pathname := "/" ++ String.mk pathTail
    search := String.mk search
    hash := String.mk hash
    href := base ++ ("/" ++ String.mk pathTail) ++ String.mk search ++ String.mk hash }

/-- Parses the part after the scheme colon of a non-special URL without //:
an opaque path running to the first of ? #, kept verbatim — in particular
with no leading slash added — followed by search and hash.  The origin of
such a URL is the string null. -/
def mkOpaque (scheme rest : List Char) : ParsedURL :=
  let pathRaw := rest.takeWhile (fun c => !(c == '?' || c == '#'))
  let afterPath := rest.drop pathRaw.length
  let search := afterPath.takeWhile (fun c => !(c == '#'))
  let hash := afterPath.drop search.length
  { origin := "null"
    pathname := String.mk pathRaw
    search := String.mk search
    hash := String.mk hash
    href := String.mk scheme ++ ":" ++ String.mk pathRaw
      ++ String.mk search ++ String.mk hash }

/-- The browser URL constructor, new URL(url), on absolute URL strings in
canonical serialized form — the only form that reaches navigate, since anchor
href getters, window.location and the origin-plus-path concatenation in
redirect all produce canonical serializations.  A scheme followed by //
parses hierarchically, with a slash-led pathname; any other scheme-led string
parses as an opaque path kept verbatim, with no leading slash — so the
pathname of mailto:default is default.  A string without a scheme is a
relative URL, on which the constructor (called with no base) throws: none. -/
def parseURL (url : String) : Option ParsedURL :=
  match splitScheme url.data with
  | none => none
  | some (scheme, rest) =>
    match rest with
    | '/' :: '/' :: tail => some (mkHierarchical scheme tail)
    | _ => some (mkOpaque scheme rest)

/-- One step a route callback can take.  Route callbacks are application code;
through the navigation context they receive (the parsed url and the redirect
function), the only ways they interact with the router are rendering (inert
DOM mutation), calling the redirect function of their context, or throwing. -/
inductive Action where
  | render (html : String)
  | redirectTo (path : String)
  | throwErr (msg : String)
deriving DecidableEq, Repr

/-- A route callback: an identity (so dispatch can be observed) and the sequence
of steps its body performs when invoked. -/
structure Callback where
  name : String
  body : List Action
deriving DecidableEq, Repr

/-- The routes object: a JS object used as a string-keyed map, empty at router
creation, with absent keys reading as undefined (none). -/
def RoutesMap := String → Option Callback

/-- Registration, from get (src/README.md lines 101-103, src/solution/app.js
lines 11-13): routes[path] = callback, overwriting any earlier entry. -/
def get (routes : RoutesMap) (path : String) (callback : Callback) : RoutesMap :=
  fun p => if p = path then some callback else routes p

/-- Which window event a listener is registered for. -/
inductive EventType where
  | click
  | popstate
deriving DecidableEq, Repr

/-- The function references the router passes to addEventListener and
removeEventListener.  handleClick and handlePop are the named functions;
popArrow is the anonymous arrow function created inside listen
(src/README.md line 320), a distinct function object from handlePop. -/
inductive HandlerId where
  | handleClick
  | popArrow
  | handlePop
deriving DecidableEq, Repr

/-- The browser window state the router reads and writes: the registered
global listeners, the current location (as its absolute href), and the log of
history entries pushed, most recent first. -/
structure Window where
  listeners : List (EventType × HandlerId)
  locationHref : String
  history : List String

/-- window.addEventListener: registers a listener for an event type; adding the
same function reference for the same type twice is a no-op (DOM semantics). -/
def addEventListener (t : EventType) (h : HandlerId) (w : Window) : Window :=
  if (t, h) ∈ w.listeners then w
  else { w with listeners := w.listeners ++ [(t, h)] }

/-- window.removeEventListener: removes the listener registered for this event
type with this same function reference; a no-op when none is registered. -/
def removeEventListener (t : EventType) (h : HandlerId) (w : Window) : Window :=
  { w with listeners := w.listeners.filter (fun x => !(x == (t, h))) }

/-- window.history.pushState(null, null, url): appends a new history entry for
url and makes url the current location, without a page load.  Modelled for the
same-origin URLs the router pushes; a cross-origin argument would raise a
SecurityError instead, which no theorem below relies on. -/
def pushState (url : String) (w : Window) : Window :=
  { w with history := url :: w.history, locationHref := url }

/-- The full state the router operates on: its routes object, the browser
window, and the dispatch log recording, in order, the names of the route
callbacks that have been invoked. -/
structure RouterState where
  routes : RoutesMap
  window : Window
  log : List String

/-- Lifts a window mutation to the router state. -/
def onWindow (f : Window → Window) (s : RouterState) : RouterState :=
  { s with window := f s.window }

/-- An exception surfacing out of the router, which contains no try/catch:
a URL-constructor failure, the TypeError from calling undefined when no route
and no default entry match, or an exception thrown by application code in a
route callback.  fuelOut is a modelling artifact marking exhaustion of the
reentrancy fuel; it never arises at the depths the theorems use. -/
inductive RouterErr where
  | urlError (input : String)
  | typeError (msg : String)
  | userErr (msg : String)
  | fuelOut
deriving DecidableEq, Repr

/-- redirect (src/README.md lines 374-378), parameterised by the navigate it
reenters: builds window.location.origin + path, pushes that URL onto the
history, then performs a full navigate against it. -/
def redirectWith (go : String → RouterState → RouterState × Option RouterErr)
    (path : String) (s : RouterState) : RouterState × Option RouterErr :=
  match parseURL s.window.locationHref with
  | none => (s, some (RouterErr.urlError s.window.locationHref))
  | some loc =>
    let url := loc.origin ++ path
    go url (onWindow (pushState url) s)

/-- Runs the body of a route callback step by step: rendering touches only the
DOM (outside the modelled state), a redirect reenters the router through go,
and a throw aborts the rest of the body, surfacing the exception; the side
effects already performed persist. -/
def runActionsWith (go : String → RouterState → RouterState × Option RouterErr) :
    List Action → RouterState → RouterState × Option RouterErr
  | [], s => (s, none)
  | Action.render _ :: rest, s => runActionsWith go rest s
  | Action.throwErr m :: _, s => (s, some (RouterErr.userErr m))
  | Action.redirectTo p :: rest, s =>
    match redirectWith go p s with
    | (s1, some e) => (s1, some e)
    | (s1, none) => runActionsWith go rest s1

/-- navigate (src/README.md lines 483-488; the structure is that of
src/solution/app.js lines 15-20 plus the default fallback and the context
argument): parse the URL with new URL (throwing on failure), look the pathname
up in routes falling back to routes.default, push the parsed href onto the
history, then call the callback — calling undefined raises a TypeError, after
the history push.  The fuel argument bounds reentrant redirect depth and is
consumed at each callback invocation. -/
def navigate : Nat → String → RouterState → RouterState × Option RouterErr
  | 0, _, s => (s, some RouterErr.fuelOut)
  | fuel + 1, url, s =>
    match parseURL url with
    | none => (s, some (RouterErr.urlError url))
    | some parsedUrl =>
      let callback :=
        match s.routes parsedUrl.pathname with
        | some cb => some cb
        | none => s.routes "default"
      let s1 := onWindow (pushState parsedUrl.href) s
      match callback with
      | none => (s1, some (RouterErr.typeError "callback is not a function"))
      | some cb =>
        runActionsWith (navigate fuel) cb.body { s1 with log := s1.log ++ [cb.name] }

/-- redirect as callable from application code (src/README.md lines 374-378). -/
def redirect (fuel : Nat) (path : String) (s : RouterState) :
    RouterState × Option RouterErr :=
  redirectWith (navigate fuel) path s

/-- The click event fields the router reads (src/README.md lines 342-355):
the mouse button, the four modifier keys, and the target element with its tag
name and resolved absolute href. -/
structure ClickEvent where
  button : Nat
  metaKey : Bool
  shiftKey : Bool
  altKey : Bool
  ctrlKey : Bool
  tagName : String
  href : String
deriving DecidableEq, Repr

/-- handleClick (src/README.md lines 342-355): return immediately (leaving the
default browser behavior untouched) on a non-primary button or any held
modifier; otherwise, when the target is an anchor, call preventDefault and
navigate to its href.  The Bool result records whether preventDefault ran. -/
def handleClick (fuel : Nat) (event : ClickEvent) (s : RouterState) :
    Bool × RouterState × Option RouterErr :=
  if event.button != 0 || event.metaKey || event.shiftKey || event.altKey
      || event.ctrlKey then
    (false, s, none)
  else if event.tagName = "A" then
    let r := navigate fuel event.href s
    (true, r.1, r.2)
  else
    (false, s, none)

/-- handlePop (src/README.md lines 214-217): navigate to the current
window.location. -/
def handlePop (fuel : Nat) (s : RouterState) : RouterState × Option RouterErr :=
  navigate fuel s.window.locationHref s

/-- listen (src/README.md lines 318-322): attach handleClick for click events
and the anonymous arrow for popstate events, then navigate to the current
location so the first route loads immediately. -/
def listen (fuel : Nat) (s : RouterState) : RouterState × Option RouterErr :=
  let s1 := onWindow (addEventListener EventType.click HandlerId.handleClick) s
  let s2 := onWindow (addEventListener EventType.popstate HandlerId.popArrow) s1
  navigate fuel s2.window.locationHref s2

/-- close (src/README.md lines 519-521): removeEventListener for click with
handleClick and for popstate with handlePop.  Note the popstate removal names
handlePop, while listen registered the distinct anonymous arrow (popArrow). -/
def close (s : RouterState) : RouterState :=
  let s1 := onWindow (removeEventListener EventType.click HandlerId.handleClick) s
  onWindow (removeEventListener EventType.popstate HandlerId.handlePop) s1

/-- The listeners currently registered on the window for one event type, in
registration order. -/
def handlersFor (t : EventType) (w : Window) : List HandlerId :=
  (w.listeners.filter (fun x => x.1 == t)).map (fun x => x.2)

/-- Runs one listener on a popstate event.  The arrow from listen and handlePop
both navigate to the current location.  A click handler run on a popstate event
reads event.button, finds undefined (not 0), and returns without effect. -/
def runPopHandler (fuel : Nat) (h : HandlerId) (s : RouterState) :
    RouterState × Option RouterErr :=
  match h with
  | HandlerId.popArrow => navigate fuel s.window.locationHref s
  | HandlerId.handlePop => navigate fuel s.window.locationHref s
  | HandlerId.handleClick => (s, none)

/-- Runs the popstate listeners in order; an exception in one listener surfaces
uncaught but does not stop the browser from running the remaining listeners. -/
def runPopHandlers (fuel : Nat) : List HandlerId → RouterState →
    RouterState × List RouterErr
  | [], s => (s, [])
  | h :: rest, s =>
    let r := runPopHandler fuel h s
    let r2 := runPopHandlers fuel rest r.1
    (r2.1, r.2.toList ++ r2.2)

/-- A browser-initiated popstate event: the browser has already moved to the
target history entry (so the location changes and nothing new is pushed) and
then fires the registered popstate listeners. -/
def dispatchPopstate (fuel : Nat) (newLoc : String) (s : RouterState) :
    RouterState × List RouterErr :=
  let s1 := { s with window := { s.window with locationHref := newLoc } }
  runPopHandlers fuel (handlersFor EventType.popstate s1.window) s1

/-- Runs one listener on a click event.  Only handleClick reacts to clicks; the
popstate handlers never appear under the click event type. -/
def runClickHandler (fuel : Nat) (h : HandlerId) (event : ClickEvent)
    (s : RouterState) : Bool × RouterState × Option RouterErr :=
  match h with
  | HandlerId.handleClick => handleClick fuel event s
  | _ => (false, s, none)

/-- Runs the click listeners in order, recording whether any called
preventDefault and collecting uncaught exceptions. -/
def runClickHandlers (fuel : Nat) (event : ClickEvent) : List HandlerId →
    RouterState → Bool × RouterState × List RouterErr
  | [], s => (false, s, [])
  | h :: rest, s =>
    let r := runClickHandler fuel h event s
    let r2 := runClickHandlers fuel event rest r.2.1
    (r.1 || r2.1, r2.2.1, r.2.2.toList ++ r2.2.2)

/-- A user click event dispatched on the window: runs the registered click
listeners; the click keeps its default browser behavior unless some listener
called preventDefault. -/
def dispatchClick (fuel : Nat) (event : ClickEvent) (s : RouterState) :
    Bool × RouterState × List RouterErr :=
  runClickHandlers fuel event (handlersFor EventType.click s.window) s

/-- A callback body that never calls the redirect function of its context, so
its invocation is the only one its dispatch produces. -/
def redirectFree : List Action → Bool
  | [] => true
  | Action.redirectTo _ :: _ => false
  | _ :: rest => redirectFree rest

/-! Concrete application scenario, following src/solution-two/app.js: a home
route, a contact route, and (where stated) a default route, on a dev-server
origin. -/

/-- The home route callback of the demo application. -/
def home : Callback := ⟨"home", [Action.render "Hello world"]⟩

/-- The contact route callback of the demo application. -/
def contact : Callback := ⟨"contact", [Action.render "Contact us"]⟩

/-- The fallback callback registered under the reserved key. -/
def notFound : Callback := ⟨"notFound", [Action.render "Page not found"]⟩

/-- A home route that redirects to the contact route from inside its body. -/
def homeRedirecting : Callback := ⟨"homeRedirecting", [Action.redirectTo "/contact"]⟩

/-- The empty routes object a fresh router starts with. -/
def emptyRoutes : RoutesMap := fun _ => none

/-- Routes after app.get on the home and contact paths. -/
def demoRoutes : RoutesMap := get (get emptyRoutes "/" home) "/contact" contact

/-- The dev-server location the page loads at. -/
def baseURL : String := "http://localhost:5000/"

/-- A freshly loaded window: no router listeners, sitting on the base location,
whose history holds that one entry. -/
def demoWindow : Window := ⟨[], baseURL, [baseURL]⟩

/-- Router state with home and contact registered, before listen. -/
def demoState : RouterState := ⟨demoRoutes, demoWindow, []⟩

/-- Router state with no routes registered at all. -/
def emptyState : RouterState := ⟨emptyRoutes, demoWindow, []⟩

/-- The absolute URL of the contact page. -/
def contactURL : String := "http://localhost:5000/contact"

/-- The parse of contactURL. -/
def contactParsed : ParsedURL :=
  ⟨"http://localhost:5000", "/contact", "", "", "http://localhost:5000/contact"⟩

/-- Routes including the fallback registration, as in app.get of
src/solution-two/app.js lines 21-25. -/
def defaultRoutes : RoutesMap := get demoRoutes "default" notFound

/-- Router state with home, contact and the fallback registered. -/
def defaultState : RouterState := ⟨defaultRoutes, demoWindow, []⟩

/-- A route callback whose body throws during rendering. -/
def boom : Callback := ⟨"boom", [Action.throwErr "render failed"]⟩

/-- Router state whose only route, at the boom path, throws when invoked. -/
def boomState : RouterState := ⟨get emptyRoutes "/boom" boom, demoWindow, []⟩

/-- Router state where the home route redirects to the contact route from
inside its callback body. -/
def redirState : RouterState :=
  ⟨get (get emptyRoutes "/" homeRedirecting) "/contact" contact, demoWindow, []⟩

/-- A cmd-click (meta key held) on the contact anchor. -/
def metaClick : ClickEvent := ⟨0, true, false, false, false, "A", contactURL⟩

/-- A plain primary-button click on the contact anchor, no modifiers held. -/
def primaryClick : ClickEvent := ⟨0, false, false, false, false, "A", contactURL⟩

end Router

example : Router.parseURL "http://localhost:5000/contact" =
    some { origin := "http://localhost:5000", pathname := "/contact",
           search := "", hash := "",
           href := "http://localhost:5000/contact" } := by rfl

example : Router.parseURL "http://localhost:5000" =
    some { origin := "http://localhost:5000", pathname := "/",
           search := "", hash := "",
           href := "http://localhost:5000/" } := by rfl

example : Router.parseURL "https://example.com/posts?id=1" =
    some { origin := "https://example.com", pathname := "/posts",
           search := "?id=1", hash := "",
           href := "https://example.com/posts?id=1" } := by rfl

example : Router.parseURL "mailto:default" =
    some { origin := "null", pathname := "default",
           search := "", hash := "", href := "mailto:default" } := by rfl

example : Router.parseURL "/contact" = none := by rfl

namespace Router

/-- Running a redirect-free callback body leaves the router state unchanged:
rendering happens outside the modelled state, and a throw only surfaces an
exception. -/
theorem runActionsWith_of_redirectFree
    (go : String → RouterState → RouterState × Option RouterErr)
    (acts : List Action) (s : RouterState) (h : redirectFree acts = true) :
    (runActionsWith go acts s).1 = s := by
  induction acts generalizing s with
  | nil => rfl
  | cons a rest ih =>
    cases a with
    | render html =>
      have h2 : redirectFree rest = true := by simpa [redirectFree] using h
      simpa [runActionsWith] using ih s h2
    | redirectTo p => simp [redirectFree] at h
    | throwErr m => rfl

end Router

namespace Router

/-- C4: a click whose button is not the primary button, or with any of the
shift, control, alt or meta modifiers held, is ignored by handleClick: it never
calls preventDefault, leaves the router state (and so the dispatch log)
untouched, and raises nothing. -/
theorem modified_click_is_ignored (fuel : Nat) (event : ClickEvent)
    (s : RouterState)
    (h : event.button ≠ 0 ∨ event.metaKey = true ∨ event.shiftKey = true
      ∨ event.altKey = true ∨ event.ctrlKey = true) :
    handleClick fuel event s = (false, s, none) := by
  unfold handleClick
  have hb : (event.button != 0 || event.metaKey || event.shiftKey
      || event.altKey || event.ctrlKey) = true := by
    rcases h with h | h | h | h | h <;> simp [h, bne_iff_ne]
  simp [hb]

/-- Witness for C4 at a concrete input: a cmd-click (meta key held) on the
contact anchor in the demo state. -/
theorem modified_click_is_ignored_witness :
    (metaClick.button ≠ 0 ∨ metaClick.metaKey = true ∨ metaClick.shiftKey = true
      ∨ metaClick.altKey = true ∨ metaClick.ctrlKey = true) ∧
    handleClick 3 metaClick demoState = (false, demoState, none) :=
  ⟨by decide, modified_click_is_ignored 3 metaClick demoState (by decide)⟩

end Router

namespace Router

/-- C5: navigating to a URL whose pathname is registered with callback c
invokes exactly c, exactly once (the dispatch log grows by exactly the one
entry for c), synchronously within the navigate call; stated for callbacks
that do not themselves redirect, whose dispatch is therefore the only one. -/
theorem registered_route_dispatches_exactly_once (fuel : Nat) (url : String)
    (pu : ParsedURL) (s : RouterState) (c : Callback)
    (hp : parseURL url = some pu)
    (hr : s.routes pu.pathname = some c)
    (hb : redirectFree c.body = true) :
    (navigate (fuel + 1) url s).1.log = s.log ++ [c.name] := by
  have h1 := runActionsWith_of_redirectFree (navigate fuel) c.body
  simp [navigate, hp, hr, h1 _ hb, onWindow, pushState]

/-- Witness for C5 at a concrete input: navigating to the contact URL in the
demo state invokes the contact callback once. -/
theorem registered_route_dispatches_exactly_once_witness :
    parseURL contactURL = some contactParsed ∧
    demoState.routes contactParsed.pathname = some contact ∧
    redirectFree contact.body = true ∧
    (navigate (2 + 1) contactURL demoState).1.log = demoState.log ++ [contact.name] :=
  ⟨by rfl, by rfl, by rfl,
    registered_route_dispatches_exactly_once 2 contactURL contactParsed demoState
      contact (by rfl) (by rfl) (by rfl)⟩

end Router

namespace Router

/-- C6: for a pathname with no registered callback but with a fallback
registered under the default key, navigation invokes the fallback and no other
callback (the dispatch log grows by exactly the fallback entry); stated for
fallbacks that do not themselves redirect. -/
theorem default_route_dispatches_when_unmatched (fuel : Nat) (url : String)
    (pu : ParsedURL) (s : RouterState) (d : Callback)
    (hp : parseURL url = some pu)
    (hr : s.routes pu.pathname = none)
    (hd : s.routes "default" = some d)
    (hb : redirectFree d.body = true) :
    (navigate (fuel + 1) url s).1.log = s.log ++ [d.name] := by
  have h1 := runActionsWith_of_redirectFree (navigate fuel) d.body
  simp [navigate, hp, hr, hd, h1 _ hb, onWindow, pushState]

/-- Witness for C6 at a concrete input: navigating to an unregistered pathname
in the state with the fallback registered invokes the fallback once. -/
theorem default_route_dispatches_when_unmatched_witness :
    parseURL "http://localhost:5000/missing"
      = some ⟨"http://localhost:5000", "/missing", "", "",
              "http://localhost:5000/missing"⟩ ∧
    defaultState.routes "/missing" = none ∧
    defaultState.routes "default" = some notFound ∧
    redirectFree notFound.body = true ∧
    (navigate (2 + 1) "http://localhost:5000/missing" defaultState).1.log
      = defaultState.log ++ [notFound.name] :=
  ⟨by rfl, by rfl, by rfl, by rfl,
    default_route_dispatches_when_unmatched 2 "http://localhost:5000/missing"
      ⟨"http://localhost:5000", "/missing", "", "",
        "http://localhost:5000/missing"⟩ defaultState notFound
      (by rfl) (by rfl) (by rfl) (by rfl)⟩

/-- C9: when the dispatched route callback throws, the router does not catch
the exception — it surfaces out of the navigate call — and the history entry
pushed for that navigation remains in place. -/
theorem thrown_callback_error_propagates_history_kept (fuel : Nat)
    (url : String) (pu : ParsedURL) (s : RouterState) (c : Callback)
    (m : String) (rest : List Action)
    (hp : parseURL url = some pu)
    (hr : s.routes pu.pathname = some c)
    (hb : c.body = Action.throwErr m :: rest) :
    (navigate (fuel + 1) url s).2 = some (RouterErr.userErr m) ∧
    (navigate (fuel + 1) url s).1.window.history
      = pu.href :: s.window.history := by
  constructor <;>
    simp [navigate, hp, hr, hb, runActionsWith, onWindow, pushState]

/-- Witness for C9 at a concrete input: navigating to the boom path, whose
callback throws, surfaces the thrown error while the pushed entry stays. -/
theorem thrown_callback_error_propagates_history_kept_witness :
    parseURL "http://localhost:5000/boom"
      = some ⟨"http://localhost:5000", "/boom", "", "",
              "http://localhost:5000/boom"⟩ ∧
    boomState.routes "/boom" = some boom ∧
    boom.body = Action.throwErr "render failed" :: [] ∧
    ((navigate (2 + 1) "http://localhost:5000/boom" boomState).2
        = some (RouterErr.userErr "render failed") ∧
      (navigate (2 + 1) "http://localhost:5000/boom" boomState).1.window.history
        = (⟨"http://localhost:5000", "/boom", "", "",
             "http://localhost:5000/boom"⟩ : ParsedURL).href
            :: boomState.window.history) :=
  ⟨by rfl, by rfl, by rfl,
    thrown_callback_error_propagates_history_kept 2 "http://localhost:5000/boom"
      ⟨"http://localhost:5000", "/boom", "", "",
        "http://localhost:5000/boom"⟩ boomState boom "render failed" []
      (by rfl) (by rfl) (by rfl)⟩

end Router

namespace Router

end Router

namespace Router

/-- C1 (code evaluated at the failing input): a browser-initiated popstate
navigation mutates the history once, not zero times — the popstate listener
calls navigate, and navigate itself calls window.history.pushState — so the
full history after the popstate dispatch carries one new entry on top of what
listen left behind. -/
theorem popstate_navigation_pushes_history :
    (dispatchPopstate 3 contactURL (listen 3 demoState).1).1.window.history
        = contactURL :: (listen 3 demoState).1.window.history ∧
    (listen 3 demoState).1.window.history.length = 2 :=
  ⟨rfl, rfl⟩

/-- C2 (code evaluated at the failing input): navigating to a pathname with no
registered callback and no fallback raises a TypeError (navigate calls the
undefined lookup result), instead of being a silent no-op; the history entry
is still pushed first, and no callback is invoked. -/
theorem unmatched_no_default_navigation_throws :
    (navigate 3 "http://localhost:5000/nowhere" emptyState).2
      = some (RouterErr.typeError "callback is not a function") ∧
    (navigate 3 "http://localhost:5000/nowhere" emptyState).1.window.history
      = "http://localhost:5000/nowhere" :: emptyState.window.history ∧
    (navigate 3 "http://localhost:5000/nowhere" emptyState).1.log
      = emptyState.log :=
  ⟨rfl, rfl, rfl⟩

/-- C3 (code evaluated at the failing input): listen does attach exactly the
two global listeners and does run one navigation pass against the current
location (the home callback fires), but that initial pass pushes a duplicate
history entry for the location the window was already at, because the pass
goes through navigate, which always pushes. -/
theorem listen_attaches_two_listeners_and_pushes_duplicate :
    (listen 3 demoState).1.window.listeners
      = [(EventType.click, HandlerId.handleClick),
         (EventType.popstate, HandlerId.popArrow)] ∧
    (listen 3 demoState).1.log = [home.name] ∧
    (listen 3 demoState).1.window.history = baseURL :: demoState.window.history :=
  ⟨rfl, rfl, rfl⟩

/-- C7 (code evaluated at the failing input): a redirect issued from inside the
home route callback does resolve against the current origin and does invoke
the contact callback synchronously before control returns (the log order shows
it), but it pushes two history entries, not one: redirect pushes the built URL
and then navigate pushes the parsed href again. -/
theorem redirect_pushes_two_history_entries :
    (navigate 3 baseURL redirState).1.log
      = [homeRedirecting.name, contact.name] ∧
    (navigate 3 baseURL redirState).2 = none ∧
    (navigate 3 baseURL redirState).1.window.history
      = [contactURL, contactURL, baseURL, baseURL] :=
  ⟨rfl, rfl, rfl⟩

/-- C8 (code evaluated at the failing input): after listen then close, the
click listener is gone (a plain click is no longer intercepted: preventDefault
is not called), but the popstate listener attached by listen dangles — close
passes handlePop to removeEventListener while listen registered the distinct
anonymous arrow — so a popstate event still dispatches a route callback. -/
theorem close_leaves_popstate_listener_dangling :
    (close (listen 3 demoState).1).window.listeners
      = [(EventType.popstate, HandlerId.popArrow)] ∧
    (dispatchPopstate 3 contactURL (close (listen 3 demoState).1)).1.log
      = [home.name, contact.name] ∧
    (dispatchClick 3 primaryClick (close (listen 3 demoState).1)).1 = false :=
  ⟨rfl, rfl, rfl⟩

end Router
